import Mathlib

/-!
Shallow embedding of `src/tiktoken_ffi/src/lib.rs`: a C FFI wrapper around the
tiktoken BPE tokenizer library.  The wrapper keeps one global slot
`static TOKENIZER: Mutex<Option<CoreBPE>>` and exposes three functions:
`tiktoken_init`, `tiktoken_count`, `tiktoken_cleanup`.

Modelling choices:
* A C string pointer is `CPtr`: either `null` or the byte sequence that the
  pointer addresses; `CStr::from_ptr` reads bytes up to the first NUL, which
  is `cstrOf` (`takeWhile (· != 0)`).
* `str::to_str` (UTF-8 validation) is `utf8Decode`, a full UTF-8 decoder
  (rejecting overlong forms, surrogates and code points above U+10FFFF, as
  Rust does), producing the list of decoded code points.
* The external collaborator `CoreBPE` is opaque: a structure holding its one
  used operation `encode_with_special_tokens`, mapping text (code points) to
  a token sequence.  `get_bpe_from_model` is external and fallible, so it is
  an explicit environment parameter `GetBpe`.
* The global `Mutex<Option<CoreBPE>>` is the explicit state `Registry`:
  `slot` is the `Option<CoreBPE>` contents, and `lockOk` records whether
  `.lock()` succeeds (`Ok`) or fails (`Err`, a poisoned mutex); acquiring a
  lock does not change whether it is poisoned, so `lockOk` is constant.
* Each FFI function becomes a state-passing function returning its C result
  together with the registry state after the call.
-/

namespace TiktokenFFI

/-- The external `CoreBPE` encoder capability (from the `tiktoken_rs` crate),
reduced to the single operation the wrapper calls:
`encode_with_special_tokens`, which maps text to its token sequence
(special-token markers included as tokens). -/
structure CoreBPE where
  encode_with_special_tokens : List Nat → List Nat

/-- The external fallible resolver `get_bpe_from_model`: model name (as code
points) to an encoder, or `none` on failure.  An environment parameter. -/
def GetBpe : Type := List Nat → Option CoreBPE

/-- A C string pointer crossing the FFI boundary: either null, or the bytes
stored at the pointed-to address. -/
inductive CPtr where
  | null : CPtr
  | bytes : List Nat → CPtr
deriving DecidableEq

/-- `CStr::from_ptr`: the byte sequence up to (excluding) the first NUL. -/
def cstrOf (bs : List Nat) : List Nat := bs.takeWhile (fun b => b != 0)

/-- The code points of a Lean string literal, used to transcribe the Rust
string literals of the source. -/
def asStr (s : String) : List Nat := s.data.map Char.toNat

/-- Is `b` a UTF-8 continuation byte (`0x80..=0xBF`)? -/
def utf8Cont (b : Nat) : Bool := 0x80 ≤ b && b ≤ 0xBF

/-- Valid range of the second byte of a multi-byte UTF-8 sequence headed by
`b1`; the four special cases exclude overlong encodings, surrogate code
points, and code points above U+10FFFF, exactly as Rust's `str::from_utf8`
does. -/
def utf8SecondOk (b1 b2 : Nat) : Bool :=
  if b1 = 0xE0 then 0xA0 ≤ b2 && b2 ≤ 0xBF
  else if b1 = 0xED then 0x80 ≤ b2 && b2 ≤ 0x9F
  else if b1 = 0xF0 then 0x90 ≤ b2 && b2 ≤ 0xBF
  else if b1 = 0xF4 then 0x80 ≤ b2 && b2 ≤ 0x8F
  else utf8Cont b2

/-- UTF-8 validation and decoding (`CStr::to_str`): `some` of the decoded
code points when the bytes are valid UTF-8, `none` otherwise. -/
def utf8Decode : List Nat → Option (List Nat)
  | [] => some []
  | b1 :: rest =>
    if b1 < 0x80 then
      (utf8Decode rest).map (fun cs => b1 :: cs)
    else if 0xC2 ≤ b1 && b1 ≤ 0xDF then
      match rest with
      | b2 :: rest2 =>
        if utf8Cont b2 then
          (utf8Decode rest2).map (fun cs => ((b1 - 0xC0) * 0x40 + (b2 - 0x80)) :: cs)
        else none
      | [] => none
    else if 0xE0 ≤ b1 && b1 ≤ 0xEF then
      match rest with
      | b2 :: b3 :: rest3 =>
        if utf8SecondOk b1 b2 && utf8Cont b3 then
          (utf8Decode rest3).map
            (fun cs => ((b1 - 0xE0) * 0x1000 + (b2 - 0x80) * 0x40 + (b3 - 0x80)) :: cs)
        else none
      | _ => none
    else if 0xF0 ≤ b1 && b1 ≤ 0xF4 then
      match rest with
      | b2 :: b3 :: b4 :: rest4 =>
        if utf8SecondOk b1 b2 && utf8Cont b3 && utf8Cont b4 then
          (utf8Decode rest4).map
            (fun cs =>
              ((b1 - 0xF0) * 0x40000 + (b2 - 0x80) * 0x1000 + (b3 - 0x80) * 0x40 + (b4 - 0x80)) :: cs)
        else none
      | _ => none
    else none

/-- The state of the global `TOKENIZER: Mutex<Option<CoreBPE>>`:
the slot contents, and whether `.lock()` succeeds. -/
structure Registry where
  lockOk : Bool
  slot : Option CoreBPE

/-- `CStr::from_ptr(encoding).to_str().unwrap_or("cl100k_base")`: decode the
scheme-name bytes, falling back to `"cl100k_base"` when they are not valid
UTF-8. -/
def decodedName (bs : List Nat) : List Nat :=
  (utf8Decode (cstrOf bs)).getD (asStr "cl100k_base")

/-- `CStr::from_ptr(text).to_str().unwrap_or("")`: decode the text bytes,
falling back to the empty string when they are not valid UTF-8. -/
def decodedText (bs : List Nat) : List Nat :=
  (utf8Decode (cstrOf bs)).getD []

/-- The `match encoding_str` of `tiktoken_init`: `none` models the `_ =>
return -2` arm (unrecognized scheme); `some r` models a recognized arm,
where `r` is `get_bpe_from_model(model).ok()` for that arm's model name. -/
def resolve_scheme (get_bpe_from_model : GetBpe) (encoding_str : List Nat) :
    Option (Option CoreBPE) :=
  if encoding_str = asStr "o200k_base" then some (get_bpe_from_model (asStr "gpt-4o"))
  else if encoding_str = asStr "cl100k_base" then
    some (get_bpe_from_model (asStr "gpt-3.5-turbo"))
  else if encoding_str = asStr "p50k_base" then
    some (get_bpe_from_model (asStr "text-davinci-003"))
  else if encoding_str = asStr "p50k_edit" then
    some (get_bpe_from_model (asStr "text-davinci-edit-001"))
  else if encoding_str = asStr "r50k_base" then some (get_bpe_from_model (asStr "gpt2"))
  else none

/-- `tiktoken_init(encoding) -> i32`, as a state-passing function: returns
the C status code and the registry state after the call.  Mirrors the source:
null pointer → `-1`; decode with `"cl100k_base"` fallback; unrecognized
scheme → `-2` before the lock; recognized scheme → resolve, then under the
lock store the (possibly absent) encoder into the slot, returning `-4` if it
is absent and `0` otherwise; lock failure → `-3`. -/
def tiktoken_init : GetBpe → CPtr → Registry → Int × Registry
  | _, CPtr.null, st => (-1, st)
  | env, CPtr.bytes bs, st =>
    match resolve_scheme env (decodedName bs) with
    | none => (-2, st)
    | some bpe =>
      if st.lockOk then
        let st1 : Registry := { st with slot := bpe }
        if st1.slot.isNone then (-4, st1) else (0, st1)
      else (-3, st)

/-- `tiktoken_count(text) -> usize`, as a state-passing function: null
pointer → `0`; decode with empty-string fallback; lock failure → `0`;
empty slot → `0`; otherwise the length of the held encoder's token sequence
for the text. -/
def tiktoken_count : CPtr → Registry → Nat × Registry
  | CPtr.null, st => (0, st)
  | CPtr.bytes bs, st =>
    if st.lockOk then
      match st.slot with
      | some bpe => ((bpe.encode_with_special_tokens (decodedText bs)).length, st)
      | none => (0, st)
    else (0, st)

/-- `tiktoken_cleanup()`: under the lock, clear the slot; if the lock cannot
be acquired, do nothing. -/
def tiktoken_cleanup (st : Registry) : Registry :=
  if st.lockOk then { st with slot := none } else st

/-- The closed set of recognized scheme names (§6 of the spec). -/
def recognizedSchemes : List (List Nat) :=
  [asStr "o200k_base", asStr "cl100k_base", asStr "p50k_base", asStr "p50k_edit",
   asStr "r50k_base"]

/-! ### Concrete instances used by witnesses -/

/-- A concrete encoder whose token sequence is the text itself. -/
def bpe0 : CoreBPE := ⟨fun cs => cs⟩

/-- A second concrete encoder, distinguishable from `bpe0`. -/
def bpeA : CoreBPE := ⟨fun cs => 0 :: cs⟩

/-- An environment in which every model resolves to `bpe0`. -/
def env0 : GetBpe := fun _ => some bpe0

/-- An environment in which every resolution fails. -/
def envFail : GetBpe := fun _ => none

/-- An environment resolving the `o200k_base` model to `bpeA` and every
other model to `bpe0`. -/
def envAB : GetBpe := fun m => if m = asStr "gpt-4o" then some bpeA else some bpe0

/-- The initial registry state: healthy lock, empty slot. -/
def st0 : Registry := ⟨true, none⟩

/-- A Ready registry state holding `bpe0`, with a healthy lock. -/
def stReady : Registry := ⟨true, some bpe0⟩

/-! ### Helper lemmas (shared) -/

/-- `tiktoken_init` never changes whether the lock is healthy. -/
theorem tiktoken_init_lockOk (env : GetBpe) (enc : CPtr) (st : Registry) :
    ((tiktoken_init env enc st).2).lockOk = st.lockOk := by
  cases enc with
  | null => rfl
  | bytes bs =>
    simp only [tiktoken_init]
    cases resolve_scheme env (decodedName bs) with
    | none => rfl
    | some bpe =>
      by_cases h : st.lockOk
      · cases bpe <;> simp [h]
      · simp [h]

/-- A `0` return from `tiktoken_init` can only come from the branch where
the lock was acquired. -/
theorem tiktoken_init_zero_lockOk (env : GetBpe) (enc : CPtr) (st : Registry)
    (h : (tiktoken_init env enc st).1 = 0) : st.lockOk = true := by
  cases enc with
  | null => simp [tiktoken_init] at h
  | bytes bs =>
    simp only [tiktoken_init] at h
    cases hr : resolve_scheme env (decodedName bs) with
    | none => rw [hr] at h; simp at h
    | some bpe =>
      rw [hr] at h
      by_cases hl : st.lockOk
      · exact hl
      · simp [hl] at h

/-- A `0` return from `tiktoken_init` stores exactly the encoder that the
recognized scheme resolved to. -/
theorem tiktoken_init_zero_slot (env : GetBpe) (bs : List Nat) (st : Registry)
    (bpe : CoreBPE) (hr : resolve_scheme env (decodedName bs) = some (some bpe))
    (hl : st.lockOk = true) :
    tiktoken_init env (CPtr.bytes bs) st = (0, { st with slot := some bpe }) := by
  simp only [tiktoken_init]
  rw [hr]
  simp [hl]

/-- Invalid-UTF-8 scheme names make `tiktoken_init` behave exactly as the
name `"cl100k_base"` does, because of `.unwrap_or("cl100k_base")`. -/
theorem init_invalid_utf8_fallback (env : GetBpe) (st : Registry) (bs : List Nat)
    (h : utf8Decode (cstrOf bs) = none) :
    tiktoken_init env (CPtr.bytes bs) st
      = tiktoken_init env (CPtr.bytes (asStr "cl100k_base")) st := by
  have hn : decodedName bs = decodedName (asStr "cl100k_base") := by
    unfold decodedName
    rw [h]
    rfl
  simp only [tiktoken_init, hn]

/-! ### Claim theorems -/

/-- C7: for every input, `tiktoken_count` returns a non-negative integer
(its result type is `Nat`, i.e. `usize`) and never signals an error: it
returns 0 for a null text pointer, 0 when the lock cannot be acquired,
0 when the slot is Empty, and otherwise exactly the length of the token
sequence the held encoder produces for the decoded text, special-token
markers included (`encode_with_special_tokens`). -/
theorem tiktoken_count_value (st : Registry) (bs : List Nat) :
    (tiktoken_count CPtr.null st).1 = 0
    ∧ (st.lockOk = false → (tiktoken_count (CPtr.bytes bs) st).1 = 0)
    ∧ (st.lockOk = true → st.slot = none → (tiktoken_count (CPtr.bytes bs) st).1 = 0)
    ∧ (∀ bpe, st.lockOk = true → st.slot = some bpe →
        (tiktoken_count (CPtr.bytes bs) st).1
          = (bpe.encode_with_special_tokens (decodedText bs)).length) := by
  refine ⟨rfl, ?_, ?_, ?_⟩
  · intro h
    simp [tiktoken_count, h]
  · intro h hs
    simp [tiktoken_count, h, hs]
  · intro bpe h hs
    simp [tiktoken_count, h, hs]

/-- Witness for C7 at a concrete Ready state and concrete text. -/
theorem tiktoken_count_value_witness :
    (tiktoken_count (CPtr.bytes (asStr "hi")) stReady).1
      = (bpe0.encode_with_special_tokens (decodedText (asStr "hi"))).length :=
  (tiktoken_count_value stReady (asStr "hi")).2.2.2 bpe0 rfl rfl

/-- C8: `tiktoken_count` is read-only with respect to the registry: for
every text pointer (null, empty, valid or invalid bytes) and every prior
state, the state after the call is identical to the state before it. -/
theorem tiktoken_count_preserves_state (text : CPtr) (st : Registry) :
    (tiktoken_count text st).2 = st := by
  cases text with
  | null => rfl
  | bytes bs =>
    simp only [tiktoken_count]
    by_cases h : st.lockOk
    · cases hs : st.slot <;> simp [h, hs]
    · simp [h]

/-- C9: `tiktoken_cleanup` is idempotent: from every starting state,
running it twice equals running it once; after one call with a healthy
lock the slot is Empty, and on lock failure the call is a silent no-op. -/
theorem tiktoken_cleanup_idempotent (st : Registry) :
    tiktoken_cleanup (tiktoken_cleanup st) = tiktoken_cleanup st
    ∧ (st.lockOk = true → (tiktoken_cleanup st).slot = none)
    ∧ (st.lockOk = false → tiktoken_cleanup st = st) := by
  by_cases h : st.lockOk <;> simp [tiktoken_cleanup, h]

/-- Witness for C9 at a concrete Ready state. -/
theorem tiktoken_cleanup_idempotent_witness :
    tiktoken_cleanup (tiktoken_cleanup stReady) = tiktoken_cleanup stReady
    ∧ (tiktoken_cleanup stReady).slot = none :=
  ⟨(tiktoken_cleanup_idempotent stReady).1,
   (tiktoken_cleanup_idempotent stReady).2.1 rfl⟩

/-- C10: a non-null pointer to the empty string (NUL as the first byte)
makes `tiktoken_init` return `-2` (unrecognized scheme) with the registry
unchanged — not `-1`; and `-1` arises only from a literally null pointer. -/
theorem tiktoken_init_null_vs_empty (env : GetBpe) (st : Registry)
    (rest : List Nat) (enc : CPtr) (h : (tiktoken_init env enc st).1 = -1) :
    tiktoken_init env (CPtr.bytes (0 :: rest)) st = (-2, st) ∧ enc = CPtr.null := by
  refine ⟨rfl, ?_⟩
  cases enc with
  | null => rfl
  | bytes bs =>
    exfalso
    simp only [tiktoken_init] at h
    cases hr : resolve_scheme env (decodedName bs) with
    | none => rw [hr] at h; simp at h
    | some bpe =>
      rw [hr] at h
      by_cases hl : st.lockOk
      · cases hb : bpe <;> simp [hl, hb] at h
      · simp [hl] at h

/-- Witness for C10: empty-string input on the initial state, with the
only `-1`-producing input being the null pointer. -/
theorem tiktoken_init_null_vs_empty_witness :
    tiktoken_init env0 (CPtr.bytes [0]) st0 = (-2, st0) ∧ CPtr.null = CPtr.null :=
  tiktoken_init_null_vs_empty env0 st0 [] CPtr.null rfl

/-- C4: `tiktoken_init` failing with `-1` (null pointer) or `-2`
(unrecognized scheme) returns before the `TOKENIZER.lock()` call and leaves
the registry exactly as it was — for every prior state, including a Ready
state (whose encoder is kept) and a poisoned-lock state (so the result is
`-1`/`-2`, never `-3`: the lock is not touched). -/
theorem tiktoken_init_early_failure_frame (env : GetBpe) (st : Registry)
    (bs : List Nat) (h : resolve_scheme env (decodedName bs) = none) :
    tiktoken_init env CPtr.null st = (-1, st)
    ∧ tiktoken_init env (CPtr.bytes bs) st = (-2, st) := by
  refine ⟨rfl, ?_⟩
  simp only [tiktoken_init]
  rw [h]

/-- Witness for C4: an unrecognized name on a Ready state (encoder kept). -/
theorem tiktoken_init_early_failure_frame_witness :
    tiktoken_init env0 CPtr.null stReady = (-1, stReady)
    ∧ tiktoken_init env0 (CPtr.bytes (asStr "unknown")) stReady = (-2, stReady) :=
  tiktoken_init_early_failure_frame env0 stReady (asStr "unknown") rfl

/-- C5: when `tiktoken_init` is called with a recognized scheme whose
resolution fails (`get_bpe_from_model(...).ok()` is `None`), it acquires the
lock, overwrites the slot with `None` (dropping any held encoder), and
returns `-4`; afterwards every `tiktoken_count` call on the resulting state
returns 0. -/
theorem tiktoken_init_resolution_failure_clears (env : GetBpe) (st : Registry)
    (bs : List Nat) (h1 : resolve_scheme env (decodedName bs) = some none)
    (h2 : st.lockOk = true) :
    tiktoken_init env (CPtr.bytes bs) st = (-4, { st with slot := none })
    ∧ ∀ text, (tiktoken_count text { st with slot := none }).1 = 0 := by
  constructor
  · simp only [tiktoken_init]
    rw [h1]
    simp [h2]
  · intro text
    cases text with
    | null => rfl
    | bytes bs2 => simp [tiktoken_count, h2]

/-- Witness for C5: a recognized name under a failing resolver, starting
from a Ready state. -/
theorem tiktoken_init_resolution_failure_clears_witness :
    tiktoken_init envFail (CPtr.bytes (asStr "cl100k_base")) stReady
      = (-4, { stReady with slot := none })
    ∧ (tiktoken_count (CPtr.bytes (asStr "hello")) { stReady with slot := none }).1
        = 0 :=
  ⟨(tiktoken_init_resolution_failure_clears envFail stReady
      (asStr "cl100k_base") rfl rfl).1,
   (tiktoken_init_resolution_failure_clears envFail stReady
      (asStr "cl100k_base") rfl rfl).2 (CPtr.bytes (asStr "hello"))⟩

/-- C6: after a successful `tiktoken_init` on scheme `a` followed by a
successful `tiktoken_init` on scheme `b` (whose resolution yields `bpeB`),
the slot holds exactly `bpeB`, and every subsequent `tiktoken_count` returns
the length of `bpeB`'s token sequence for the text — scheme `b`'s
segmentation, never scheme `a`'s. -/
theorem tiktoken_init_overwrite (env : GetBpe) (st : Registry) (a b : List Nat)
    (bpeB : CoreBPE) (hA : (tiktoken_init env (CPtr.bytes a) st).1 = 0)
    (hB : resolve_scheme env (decodedName b) = some (some bpeB)) :
    (tiktoken_init env (CPtr.bytes b) (tiktoken_init env (CPtr.bytes a) st).2).1 = 0
    ∧ ((tiktoken_init env (CPtr.bytes b) (tiktoken_init env (CPtr.bytes a) st).2).2).slot
        = some bpeB
    ∧ ∀ bs, (tiktoken_count (CPtr.bytes bs)
          (tiktoken_init env (CPtr.bytes b) (tiktoken_init env (CPtr.bytes a) st).2).2).1
        = (bpeB.encode_with_special_tokens (decodedText bs)).length := by
  have hl : ((tiktoken_init env (CPtr.bytes a) st).2).lockOk = true := by
    rw [tiktoken_init_lockOk]
    exact tiktoken_init_zero_lockOk env (CPtr.bytes a) st hA
  have hstep := tiktoken_init_zero_slot env b
    ((tiktoken_init env (CPtr.bytes a) st).2) bpeB hB hl
  rw [hstep]
  refine ⟨rfl, rfl, ?_⟩
  intro bs
  simp [tiktoken_count, hl]

/-- Witness for C6: initialize `o200k_base` (resolving to `bpeA`), then
`cl100k_base` (resolving to `bpe0`); the slot holds `bpe0` and counting
uses it. -/
theorem tiktoken_init_overwrite_witness :
    (tiktoken_init envAB (CPtr.bytes (asStr "cl100k_base"))
        (tiktoken_init envAB (CPtr.bytes (asStr "o200k_base")) st0).2).1 = 0
    ∧ ((tiktoken_init envAB (CPtr.bytes (asStr "cl100k_base"))
        (tiktoken_init envAB (CPtr.bytes (asStr "o200k_base")) st0).2).2).slot
        = some bpe0
    ∧ (tiktoken_count (CPtr.bytes (asStr "hello"))
        (tiktoken_init envAB (CPtr.bytes (asStr "cl100k_base"))
          (tiktoken_init envAB (CPtr.bytes (asStr "o200k_base")) st0).2).2).1
        = (bpe0.encode_with_special_tokens (decodedText (asStr "hello"))).length := by
  have h := tiktoken_init_overwrite envAB st0 (asStr "o200k_base")
    (asStr "cl100k_base") bpe0 rfl rfl
  exact ⟨h.1, h.2.1, h.2.2 (asStr "hello")⟩

/-- C1 counterexample: the byte `0xFF` is not valid UTF-8, yet
`tiktoken_init` on it returns 0 and installs an encoder, while the empty
scheme name returns `-2` and installs nothing — so `tiktoken_init` does not
treat invalid UTF-8 as the empty scheme name. -/
theorem tiktoken_init_invalid_utf8_cex :
    utf8Decode [255] = none
    ∧ (tiktoken_init env0 (CPtr.bytes [255]) st0).1 = 0
    ∧ ((tiktoken_init env0 (CPtr.bytes [255]) st0).2).slot = some bpe0
    ∧ (tiktoken_init env0 (CPtr.bytes []) st0).1 = -2
    ∧ ((tiktoken_init env0 (CPtr.bytes []) st0).2).slot = none :=
  ⟨rfl, rfl, rfl, rfl, rfl⟩

/-- C1 amended: a non-null input whose bytes are not valid UTF-8 is treated
as empty text by `tiktoken_count` (`.unwrap_or("")`), but by
`tiktoken_init` as the scheme name `"cl100k_base"`
(`.unwrap_or("cl100k_base")`), not as the empty name. -/
theorem tiktoken_invalid_utf8_degrade (env : GetBpe) (st : Registry)
    (bs : List Nat) (h : utf8Decode (cstrOf bs) = none) :
    tiktoken_count (CPtr.bytes bs) st = tiktoken_count (CPtr.bytes []) st
    ∧ tiktoken_init env (CPtr.bytes bs) st
        = tiktoken_init env (CPtr.bytes (asStr "cl100k_base")) st := by
  constructor
  · have ht : decodedText bs = decodedText [] := by
      unfold decodedText
      rw [h]
      rfl
    simp only [tiktoken_count, ht]
  · exact init_invalid_utf8_fallback env st bs h

/-- Witness for the amended C1 at the invalid byte sequence `[0xFF]`. -/
theorem tiktoken_invalid_utf8_degrade_witness :
    tiktoken_count (CPtr.bytes [255]) stReady = tiktoken_count (CPtr.bytes []) stReady
    ∧ tiktoken_init env0 (CPtr.bytes [255]) stReady
        = tiktoken_init env0 (CPtr.bytes (asStr "cl100k_base")) stReady :=
  tiktoken_invalid_utf8_degrade env0 stReady [255] rfl

/-- C2: on a non-null scheme-name pointer whose bytes are not valid UTF-8,
`tiktoken_init` behaves exactly as on the name `"cl100k_base"`: when that
scheme's model resolves to an encoder and the lock is healthy, it replaces
the slot contents with that encoder and returns 0 — the malformed name is
not rejected. -/
theorem tiktoken_init_invalid_utf8_as_cl100k (env : GetBpe) (st : Registry)
    (bs : List Nat) (bpe : CoreBPE) (h : utf8Decode (cstrOf bs) = none)
    (henv : env (asStr "gpt-3.5-turbo") = some bpe) (hlock : st.lockOk = true) :
    tiktoken_init env (CPtr.bytes bs) st = (0, { st with slot := some bpe })
    ∧ tiktoken_init env (CPtr.bytes bs) st
        = tiktoken_init env (CPtr.bytes (asStr "cl100k_base")) st := by
  have hr : resolve_scheme env (decodedName bs) = some (some bpe) := by
    have hn : decodedName bs = asStr "cl100k_base" := by
      unfold decodedName
      rw [h]
      rfl
    rw [hn]
    show some (env (asStr "gpt-3.5-turbo")) = some (some bpe)
    rw [henv]
  exact ⟨tiktoken_init_zero_slot env bs st bpe hr hlock,
    init_invalid_utf8_fallback env st bs h⟩

/-- Witness for C2 at the invalid byte sequence `[0xFF]` on the initial
state, under an environment where resolution succeeds. -/
theorem tiktoken_init_invalid_utf8_as_cl100k_witness :
    tiktoken_init env0 (CPtr.bytes [255]) st0 = (0, { st0 with slot := some bpe0 })
    ∧ tiktoken_init env0 (CPtr.bytes [255]) st0
        = tiktoken_init env0 (CPtr.bytes (asStr "cl100k_base")) st0 :=
  tiktoken_init_invalid_utf8_as_cl100k env0 st0 [255] bpe0 rfl rfl rfl

/-- The `match encoding_str` of the source returns its `-2` arm exactly for
names outside the closed five-name set. -/
theorem resolve_scheme_none_iff (env : GetBpe) (s : List Nat) :
    resolve_scheme env s = none ↔ s ∉ recognizedSchemes := by
  unfold resolve_scheme recognizedSchemes
  split_ifs with h1 h2 h3 h4 h5 <;> simp_all [List.mem_cons]

/-- When the name bytes decode, `decodedName` is the decoded name. -/
theorem decodedName_eq_of_decode (bs s : List Nat)
    (h : utf8Decode (cstrOf bs) = some s) : decodedName bs = s := by
  unfold decodedName
  rw [h]
  rfl

/-- When the name bytes do not decode, the fallback name `"cl100k_base"`
is recognized. -/
theorem decodedName_mem_of_invalid (bs : List Nat)
    (h : utf8Decode (cstrOf bs) = none) : decodedName bs ∈ recognizedSchemes := by
  unfold decodedName
  rw [h]
  decide

/-- A name on which the source `match` selects a scheme arm is in the
recognized set. -/
theorem mem_of_resolve_isSome (env : GetBpe) (bs : List Nat) (bpe : Option CoreBPE)
    (hr : resolve_scheme env (decodedName bs) = some bpe) :
    decodedName bs ∈ recognizedSchemes := by
  by_contra hm
  rw [(resolve_scheme_none_iff env (decodedName bs)).mpr hm] at hr
  exact Option.noConfusion hr

/-- If the (fallback-completed) name is recognized, there is no valid
decoding of the bytes to an unrecognized name. -/
theorem not_exists_invalid_of_mem (bs : List Nat)
    (hmem : decodedName bs ∈ recognizedSchemes) :
    ¬ ∃ s, utf8Decode (cstrOf bs) = some s ∧ s ∉ recognizedSchemes := by
  rintro ⟨s, hs, hns⟩
  rw [decodedName_eq_of_decode bs s hs] at hmem
  exact hns hmem

/-- C3: `tiktoken_init` returns exactly one of the five status codes, each
under exactly its condition: `-1` iff the pointer is null; `-2` iff the
bytes decode to a valid name outside the recognized set; `-3` iff the name
(after the invalid-UTF-8 fallback) is recognized but the lock is poisoned;
`-4` iff the name is recognized, the lock is healthy, and the scheme's
resolution failed; `0` iff the name is recognized, the lock is healthy, and
resolution produced an encoder. -/
theorem tiktoken_init_status_complete (env : GetBpe) (enc : CPtr) (st : Registry) :
    ((tiktoken_init env enc st).1 = 0 ∨ (tiktoken_init env enc st).1 = -1
      ∨ (tiktoken_init env enc st).1 = -2 ∨ (tiktoken_init env enc st).1 = -3
      ∨ (tiktoken_init env enc st).1 = -4)
    ∧ ((tiktoken_init env enc st).1 = -1 ↔ enc = CPtr.null)
    ∧ ((tiktoken_init env enc st).1 = -2 ↔
        ∃ bs s, enc = CPtr.bytes bs ∧ utf8Decode (cstrOf bs) = some s
          ∧ s ∉ recognizedSchemes)
    ∧ ((tiktoken_init env enc st).1 = -3 ↔
        ∃ bs, enc = CPtr.bytes bs ∧ decodedName bs ∈ recognizedSchemes
          ∧ st.lockOk = false)
    ∧ ((tiktoken_init env enc st).1 = -4 ↔
        ∃ bs, enc = CPtr.bytes bs ∧ resolve_scheme env (decodedName bs) = some none
          ∧ st.lockOk = true)
    ∧ ((tiktoken_init env enc st).1 = 0 ↔
        ∃ bs bpe, enc = CPtr.bytes bs
          ∧ resolve_scheme env (decodedName bs) = some (some bpe)
          ∧ st.lockOk = true) := by
  cases enc with
  | null => simp [tiktoken_init]
  | bytes bs =>
    rcases hr : resolve_scheme env (decodedName bs) with _ | bpe
    · have hmem : decodedName bs ∉ recognizedSchemes :=
        (resolve_scheme_none_iff env (decodedName bs)).mp hr
      have hsome : ∃ s, utf8Decode (cstrOf bs) = some s ∧ s ∉ recognizedSchemes := by
        cases hd : utf8Decode (cstrOf bs) with
        | none => exact absurd (decodedName_mem_of_invalid bs hd) hmem
        | some s =>
          exact ⟨s, rfl, by rwa [decodedName_eq_of_decode bs s hd] at hmem⟩
      refine ⟨?_, ?_, ?_, ?_, ?_, ?_⟩
      · simp [tiktoken_init, hr]
      · simp [tiktoken_init, hr]
      · simp only [tiktoken_init, hr]
        simp only [CPtr.bytes.injEq]
        constructor
        · intro _
          obtain ⟨s, hs, hns⟩ := hsome
          exact ⟨bs, s, rfl, hs, hns⟩
        · intro _
          trivial
      · simp [tiktoken_init, hr]
        intro hm
        exact absurd hm hmem
      · simp [tiktoken_init, hr]
      · simp [tiktoken_init, hr]
    · have hmem : decodedName bs ∈ recognizedSchemes :=
        mem_of_resolve_isSome env bs bpe hr
      by_cases hl : st.lockOk
      · cases bpe with
        | none =>
          refine ⟨?_, ?_, ?_, ?_, ?_, ?_⟩
          · simp [tiktoken_init, hr, hl]
          · simp [tiktoken_init, hr, hl]
          · simp [tiktoken_init, hr, hl]
            exact fun s hs => decodedName_eq_of_decode bs s hs ▸ hmem
          · simp [tiktoken_init, hr, hl]
          · simp [tiktoken_init, hr, hl]
          · simp [tiktoken_init, hr, hl]
        | some b =>
          refine ⟨?_, ?_, ?_, ?_, ?_, ?_⟩
          · simp [tiktoken_init, hr, hl]
          · simp [tiktoken_init, hr, hl]
          · simp [tiktoken_init, hr, hl]
            exact fun s hs => decodedName_eq_of_decode bs s hs ▸ hmem
          · simp [tiktoken_init, hr, hl]
          · simp [tiktoken_init, hr, hl]
          · simp [tiktoken_init, hr, hl]
      · refine ⟨?_, ?_, ?_, ?_, ?_, ?_⟩
        · simp [tiktoken_init, hr, hl]
        · simp [tiktoken_init, hr, hl]
        · simp [tiktoken_init, hr, hl]
          exact fun s hs => decodedName_eq_of_decode bs s hs ▸ hmem
        · simp [tiktoken_init, hr, hl]
          exact hmem
        · simp [tiktoken_init, hr, hl]
        · simp [tiktoken_init, hr, hl]

/-- Witness for C3: a successful initialize on a concrete recognized name,
obtained through the status characterization. -/
theorem tiktoken_init_status_complete_witness :
    (tiktoken_init env0 (CPtr.bytes (asStr "cl100k_base")) st0).1 = 0 :=
  (tiktoken_init_status_complete env0 (CPtr.bytes (asStr "cl100k_base")) st0).2.2.2.2.2.mpr
    ⟨asStr "cl100k_base", bpe0, rfl, rfl, rfl⟩

end TiktokenFFI
